import Mathlib

/-!
Shallow embedding of the matchmaking and session-lifecycle core of the
strangerTalk application (src/src/context/AppContext.tsx, second revision).

The shared state store is a Firebase Realtime Database; we model it as four
association lists (users, requests, responses, rooms).  A Firebase `set`
REPLACES the whole value stored at a path, so every record type below keeps
fields optional exactly where some write in the source omits them, and
writing an object that omits a field erases that field.

Each handler of the source is embedded as a function producing the list of
store operations it performs, in program order, together with its effect on
the client-local React state.  Local state updates are modelled as taking
effect immediately (the source calls the setters sequentially).
-/

namespace StrangerTalk

abbrev UserId := String
abbrev RoomId := String

/-- The status strings written by the source: available, requesting,
chatting. -/
inductive Status where
  | available
  | requesting
  | chatting
deriving DecidableEq, Repr

/-- The local connection status of a client (src/src/types/index.ts). -/
inductive ConnStatus where
  | disconnected
  | connecting
  | connected
  | reconnecting
deriving DecidableEq, Repr

/-- The local React `user` object: { id, nickname, interests }. -/
structure UserInfo where
  id : UserId
  nickname : String
  interests : List String
deriving DecidableEq, Repr

/-- A record at users/{id}.  `currentRoomId` and `chatPartner` are optional
because several writes in the source omit them (a Firebase set then leaves
them absent). -/
structure UserRecord where
  id : UserId
  nickname : String
  interests : List String
  online : Bool
  status : Status
  lastSeen : Nat
  currentRoomId : Option RoomId
  chatPartner : Option UserId
deriving DecidableEq, Repr

/-- A record at requests/{targetId}, as written in sendChatRequest. -/
structure MatchRequest where
  fromId : UserId
  timestamp : Nat
  userInfo : UserInfo
  roomId : Option RoomId
deriving DecidableEq, Repr

/-- A record at responses/{requesterId}.  The decline write in onDecline
stores only { accepted: false, timestamp }, so the other fields are
optional. -/
structure MatchResponse where
  accepted : Bool
  fromId : Option UserId
  timestamp : Nat
  userInfo : Option UserInfo
  roomId : Option RoomId
deriving DecidableEq, Repr

/-- A chat message as written by sendMessage. -/
structure ChatMessage where
  id : String
  senderId : UserId
  text : String
  timestamp : Nat
deriving DecidableEq, Repr

/-- A record at rooms/{roomId}.  `participants` and `startedAt` are optional
because `set(roomRef, { active: false })` replaces the whole record with one
that lacks them; an absent `active` reads as false (the room watcher treats
`!roomData.active` as closed). -/
structure RoomRecord where
  participants : Option (List UserId)
  startedAt : Option Nat
  active : Bool
  messages : List (String × ChatMessage)
deriving DecidableEq, Repr

/-- The record written by `set(roomRef, { active: false })` in endChat and
clearChat: Firebase set replaces the node, erasing participants, startedAt
and messages. -/
def closedRoomRecord : RoomRecord :=
  { participants := none, startedAt := none, active := false, messages := [] }

/-- Association-list write: replace the value at a key, or append the pair. -/
def alistSet [DecidableEq α] (l : List (α × β)) (k : α) (v : β) : List (α × β) :=
  match l with
  | [] => [(k, v)]
  | (k0, v0) :: rest => if k0 = k then (k, v) :: rest else (k0, v0) :: alistSet rest k v

/-- Association-list delete. -/
def alistRemove [DecidableEq α] (l : List (α × β)) (k : α) : List (α × β) :=
  match l with
  | [] => []
  | (k0, v0) :: rest => if k0 = k then alistRemove rest k else (k0, v0) :: alistRemove rest k

/-- Association-list lookup. -/
def alistGet [DecidableEq α] (l : List (α × β)) (k : α) : Option β :=
  match l with
  | [] => none
  | (k0, v0) :: rest => if k0 = k then some v0 else alistGet rest k

theorem alistGet_set_self [DecidableEq α] (l : List (α × β)) (k : α) (v : β) :
    alistGet (alistSet l k v) k = some v := by
  induction l with
  | nil => simp [alistSet, alistGet]
  | cons hd tl ih =>
    obtain ⟨k0, v0⟩ := hd
    by_cases h : k0 = k
    · simp [alistSet, alistGet, h]
    · simp [alistSet, alistGet, h, ih]

theorem alistGet_set_ne [DecidableEq α] (l : List (α × β)) (k k' : α) (v : β)
    (h : k ≠ k') : alistGet (alistSet l k v) k' = alistGet l k' := by
  induction l with
  | nil => simp [alistSet, alistGet, h]
  | cons hd tl ih =>
    obtain ⟨k0, v0⟩ := hd
    by_cases h0 : k0 = k
    · subst h0
      simp [alistSet, alistGet, h]
    · simp [alistSet, alistGet, h0, ih]

theorem alistGet_remove_self [DecidableEq α] (l : List (α × β)) (k : α) :
    alistGet (alistRemove l k) k = none := by
  induction l with
  | nil => simp [alistRemove, alistGet]
  | cons hd tl ih =>
    obtain ⟨k0, v0⟩ := hd
    by_cases h : k0 = k
    · simp [alistRemove, h, ih]
    · simp [alistRemove, alistGet, h, ih]

theorem alistGet_remove_ne [DecidableEq α] (l : List (α × β)) (k k' : α)
    (h : k ≠ k') : alistGet (alistRemove l k) k' = alistGet l k' := by
  induction l with
  | nil => simp [alistRemove, alistGet]
  | cons hd tl ih =>
    obtain ⟨k0, v0⟩ := hd
    by_cases h0 : k0 = k
    · subst h0
      simp [alistRemove, alistGet, h, ih]
    · simp [alistRemove, alistGet, h0, ih]

theorem alistSet_of_get_none [DecidableEq α] (l : List (α × β)) (k : α) (v : β)
    (h : alistGet l k = none) : alistSet l k v = l ++ [(k, v)] := by
  induction l with
  | nil => simp [alistSet]
  | cons hd tl ih =>
    obtain ⟨k0, v0⟩ := hd
    by_cases h0 : k0 = k
    · simp [alistGet, h0] at h
    · simp [alistGet, h0] at h
      simp [alistSet, h0, ih h]

/-- The whole shared store: one association list per top-level path. -/
structure Store where
  users : List (UserId × UserRecord)
  requests : List (UserId × MatchRequest)
  responses : List (UserId × MatchResponse)
  rooms : List (RoomId × RoomRecord)
deriving DecidableEq, Repr

/-- One store interaction performed by a handler, in program order. -/
inductive StoreOp where
  | writeUser (uid : UserId) (r : UserRecord)
  | removeUser (uid : UserId)
  | writeRequest (target : UserId) (q : MatchRequest)
  | removeRequest (target : UserId)
  | writeResponse (target : UserId) (r : MatchResponse)
  | removeResponse (target : UserId)
  | writeRoom (rid : RoomId) (r : RoomRecord)
  | removeRoom (rid : RoomId)
  | writeMessage (rid : RoomId) (mid : String) (m : ChatMessage)
deriving DecidableEq, Repr

/-- Apply one operation to the store.  writeMessage models
`set(ref(db, rooms/{rid}/messages/{mid}), m)`: it updates only the nested
message key, creating the enclosing room node if absent. -/
def applyOp (s : Store) : StoreOp → Store
  | .writeUser uid r => { s with users := alistSet s.users uid r }
  | .removeUser uid => { s with users := alistRemove s.users uid }
  | .writeRequest t q => { s with requests := alistSet s.requests t q }
  | .removeRequest t => { s with requests := alistRemove s.requests t }
  | .writeResponse t r => { s with responses := alistSet s.responses t r }
  | .removeResponse t => { s with responses := alistRemove s.responses t }
  | .writeRoom rid r => { s with rooms := alistSet s.rooms rid r }
  | .removeRoom rid => { s with rooms := alistRemove s.rooms rid }
  | .writeMessage rid mid m =>
    match alistGet s.rooms rid with
    | some room =>
      { s with rooms := alistSet s.rooms rid ({ room with messages := alistSet room.messages mid m }) }
    | none =>
      let fresh : RoomRecord :=
        { participants := none, startedAt := none, active := false, messages := [(mid, m)] }
      { s with rooms := alistSet s.rooms rid fresh }

/-- Apply the operations of a handler in program order. -/
def applyOps (s : Store) (ops : List StoreOp) : Store :=
  ops.foldl applyOp s

/-- The client-local React state relevant to the core. -/
structure LocalState where
  connectionStatus : ConnStatus
  messages : List ChatMessage
  currentChatPartner : Option UserInfo
  currentRoomId : Option RoomId
  permissionError : Option String
deriving DecidableEq, Repr

/-- The record written by the several reset-to-available writes in the
source (startNewChat line 791, the request timeout line 694, clearChat line
769, endChat line 332).  The writes differ only in which of chatPartner and
currentRoomId they spell out as null versus leave absent; under set-replace
semantics all four produce this record. -/
def availableRecord (user : UserInfo) (now : Nat) : UserRecord :=
  { id := user.id, nickname := user.nickname, interests := user.interests,
    online := true, status := .available, lastSeen := now,
    currentRoomId := none, chatPartner := none }

/-- The record the requester writes for itself in sendChatRequest (line
627): spread of the local user object with online, status requesting,
lastSeen and currentRoomId; chatPartner is absent. -/
def requestingRecord (user : UserInfo) (rid : RoomId) (now : Nat) : UserRecord :=
  { id := user.id, nickname := user.nickname, interests := user.interests,
    online := true, status := .requesting, lastSeen := now,
    currentRoomId := some rid, chatPartner := none }

/-- The record a client writes for itself when entering a chat (onAccept
line 468, the responses handler line 539, the sendChatRequest accept
handler line 655). -/
def chattingRecord (user : UserInfo) (partner : UserId) (rid : RoomId) (now : Nat) : UserRecord :=
  { id := user.id, nickname := user.nickname, interests := user.interests,
    online := true, status := .chatting, lastSeen := now,
    currentRoomId := some rid, chatPartner := some partner }

/-- The room record written at handshake completion (onAccept line 483, the
responses handler line 558, the sendChatRequest accept handler line 665):
participants, startedAt and active, with no messages key. -/
def newRoomRecord (a b : UserId) (now : Nat) : RoomRecord :=
  { participants := some [a, b], startedAt := some now, active := true, messages := [] }

/-- Lexicographic comparison of character lists by code point, the order JS
uses to sort an array of strings. -/
def charListLt : List Char → List Char → Bool
  | [], [] => false
  | [], _ :: _ => true
  | _ :: _, [] => false
  | a :: as, b :: bs =>
    if a.toNat < b.toNat then true
    else if b.toNat < a.toNat then false
    else charListLt as bs

/-- JS string comparison used by Array.prototype.sort. -/
def jsStrLt (a b : String) : Bool :=
  charListLt a.data b.data

/-- JS [a, b].sort().join("-"): the two ids sorted lexicographically and
joined with a hyphen (sendChatRequest line 624). -/
def sortedRoomId (a b : UserId) : RoomId :=
  if jsStrLt b a then b ++ "-" ++ a else a ++ "-" ++ b

/-- clearChat (lines 759 to 779): clears local messages; if a current room
is set, replaces the room record with set(roomRef, writing only
active=false); if a chat partner is set, rewrites the own user record to
available; finally clears the local partner. -/
def clearChat (st : LocalState) (user : UserInfo) (now : Nat) : LocalState × List StoreOp :=
  let roomOps : List StoreOp :=
    match st.currentRoomId with
    | some rid => [.writeRoom rid closedRoomRecord]
    | none => []
  let userOps : List StoreOp :=
    match st.currentChatPartner with
    | some _ => [.writeUser user.id (availableRecord user now)]
    | none => []
  ({ st with messages := [], currentRoomId := none, currentChatPartner := none },
   roomOps ++ userOps)

/-- startNewChat (lines 781 to 813).  Guard: returns at once while the local
connection status is connecting.  Otherwise: clearChat, set status
connecting, clear the permission error, write the own record as available
with currentRoomId null, and enter the findAndConnect loop (returned as the
Bool flag; candidate search and the ensuing request are modelled
separately). -/
def startNewChat (st : LocalState) (user : UserInfo) (now : Nat) : LocalState × List StoreOp × Bool :=
  if st.connectionStatus = .connecting then (st, [], false)
  else
    let cleared := clearChat st user now
    let st1 : LocalState :=
      { cleared.1 with connectionStatus := .connecting, permissionError := none }
    (st1, cleared.2 ++ [.writeUser user.id (availableRecord user now)], true)

/-- endChat (lines 307 to 339): resets local video and chat state; if a
current room is set, replaces the room record with set(roomRef, writing only
active=false); then rewrites the own user record to available (the write at
line 332 omits currentRoomId, so it becomes absent). -/
def endChat (st : LocalState) (user : UserInfo) (now : Nat) : LocalState × List StoreOp :=
  let roomOps : List StoreOp :=
    match st.currentRoomId with
    | some rid => [.writeRoom rid closedRoomRecord]
    | none => []
  ({ st with
      connectionStatus := .disconnected,
      currentChatPartner := none,
      messages := [],
      currentRoomId := none },
   roomOps ++ [.writeUser user.id (availableRecord user now)])

/-- The room id used by onAccept (line 445): request.roomId, falling back to
the sorted join when the request carries none. -/
def acceptRoomId (selfId : UserId) (req : MatchRequest) : RoomId :=
  match req.roomId with
  | some r => r
  | none => sortedRoomId selfId req.fromId

/-- The onAccept callback of the incoming-request handler (lines 436 to
498).  Store writes in program order: the accepted MatchResponse at
responses/{request.from} (line 448), the own user record (line 468), the
record of the requester (line 473), the room (line 483), then removal of
the own request path (line 497). -/
def onAccept (st : LocalState) (user : UserInfo) (req : MatchRequest)
    (fromUser : UserRecord) (now : Nat) : LocalState × List StoreOp :=
  let rid := acceptRoomId user.id req
  let st1 : LocalState :=
    { st with
      currentChatPartner := some { id := fromUser.id, nickname := fromUser.nickname,
                                   interests := fromUser.interests },
      connectionStatus := .connected,
      currentRoomId := some rid }
  (st1,
   [ .writeResponse req.fromId
       { accepted := true, fromId := some user.id, timestamp := now,
         userInfo := some user, roomId := some rid },
     .writeUser user.id (chattingRecord user req.fromId rid now),
     .writeUser req.fromId
       ({ fromUser with
            status := .chatting,
            chatPartner := some user.id,
            online := true,
            lastSeen := now,
            currentRoomId := some rid }),
     .writeRoom rid (newRoomRecord user.id req.fromId now),
     .removeRequest user.id ])

/-- The onDecline callback (lines 499 to 509): writes a MatchResponse
holding only accepted=false and a timestamp at responses/{request.from},
then removes the own request path.  It touches no user record. -/
def onDecline (selfId : UserId) (fromId : UserId) (now : Nat) : List StoreOp :=
  [ .writeResponse fromId
      { accepted := false, fromId := none, timestamp := now,
        userInfo := none, roomId := none },
    .removeRequest selfId ]

/-- The accepted branch of the responses subscription of the requester
(lines 517 to 579): reads the record of the accepter, sets the local
partner, status connected and current room id; writes the own record, the
record of the accepter, the room, and finally removes the own response path
(line 577).  JS interpolation of an absent field produces the literal
string undefined, modelled by getD. -/
def respAccept (st : LocalState) (user : UserInfo) (resp : MatchResponse)
    (targetUser : UserRecord) (now : Nat) : LocalState × List StoreOp :=
  let fid := resp.fromId.getD "undefined"
  let rid := resp.roomId.getD "undefined"
  let st1 : LocalState :=
    { st with
      currentChatPartner := some
        { id := fid,
          nickname := (resp.userInfo.map UserInfo.nickname).getD "Anonymous",
          interests := (resp.userInfo.map UserInfo.interests).getD [] },
      connectionStatus := .connected,
      currentRoomId := some rid }
  (st1,
   [ .writeUser user.id (chattingRecord user fid rid now),
     .writeUser fid
       ({ targetUser with
            status := .chatting,
            chatPartner := some user.id,
            online := true,
            lastSeen := now,
            currentRoomId := some rid }),
     .writeRoom rid (newRoomRecord user.id fid now),
     .removeResponse user.id ])

/-- The declined branch of the responses subscription of the requester
(lines 572 to 578): sets the local status to disconnected, restarts
matchmaking via startNewChat, and removes the own response path. -/
def respDecline (st : LocalState) (user : UserInfo) (now : Nat) :
    LocalState × List StoreOp × Bool :=
  let st1 : LocalState := { st with connectionStatus := .disconnected }
  let started := startNewChat st1 user now
  (started.1, started.2.1 ++ [.removeResponse user.id], started.2.2)

/-- The whole decline exchange: the target runs onDecline, then the
requester processes the declined response (including the restart of
matchmaking). -/
def declineExchange (s : Store) (st : LocalState) (requester : UserInfo)
    (declinerId : UserId) (now later : Nat) : Store × LocalState :=
  let s1 := applyOps s (onDecline declinerId requester.id now)
  let r := respDecline st requester later
  (applyOps s1 r.2.1, r.1)

/-- sendChatRequest, request phase (lines 611 to 644).  Re-reads the record
of the candidate; when it is absent or its status is not available, aborts
with no store write, sets the local status disconnected and restarts the
search (the Bool flag).  Otherwise computes the room id as the sorted join
of the two ids, stores it locally, writes the own record as requesting and
writes the MatchRequest at requests/{target}. -/
def sendChatRequest (s : Store) (st : LocalState) (user : UserInfo)
    (targetUserId : UserId) (now : Nat) : LocalState × List StoreOp × Bool :=
  match alistGet s.users targetUserId with
  | none => ({ st with connectionStatus := .disconnected }, [], true)
  | some t =>
    if t.status = .available then
      let rid := sortedRoomId user.id targetUserId
      ({ st with currentRoomId := some rid },
       [ .writeUser user.id (requestingRecord user rid now),
         .writeRequest targetUserId
           { fromId := user.id, timestamp := now, userInfo := user, roomId := some rid } ],
       false)
    else ({ st with connectionStatus := .disconnected }, [], true)

/-- The 10s timeout handler armed by sendChatRequest (lines 688 to 705):
re-reads the own record; when its status is still requesting, removes the
own response path and the request written at requests/{target}, rewrites
the own record to available with currentRoomId null, resets the local
state and restarts matchmaking (the Bool flag).  Otherwise it does
nothing. -/
def requestTimeout (s : Store) (st : LocalState) (user : UserInfo)
    (targetUserId : UserId) (now : Nat) : Store × LocalState × Bool :=
  match alistGet s.users user.id with
  | some cur =>
    if cur.status = .requesting then
      (applyOps s
        [ .removeResponse user.id, .removeRequest targetUserId,
          .writeUser user.id (availableRecord user now) ],
       { st with connectionStatus := .disconnected, currentRoomId := none },
       true)
    else (s, st, false)
  | none => (s, st, false)

/-- sendMessage (lines 717 to 730): a silent no-op when there is no current
chat partner or no current room id; otherwise one write at
rooms/{roomId}/messages/{pathId} of a message carrying its own fresh id. -/
def sendMessage (st : LocalState) (selfId : UserId) (text : String)
    (pathId msgId : String) (now : Nat) : List StoreOp :=
  match st.currentChatPartner, st.currentRoomId with
  | some _, some rid =>
    [ .writeMessage rid pathId
        { id := msgId, senderId := selfId, text := text, timestamp := now } ]
  | _, _ => []

/-- The filter of findAvailableUser (lines 596 to 600): online records other
than self whose status is available.  An absent users snapshot is the empty
list. -/
def availableUsers (users : List UserRecord) (selfId : UserId) : List UserRecord :=
  users.filter (fun u => u.online && u.id != selfId && decide (u.status = Status.available))

/-- findAvailableUser (lines 590 to 609): among the filtered candidates,
picks the one at Math.floor(Math.random() * length) — modelled as an
arbitrary draw r reduced modulo the length — and returns its id; returns
null when no candidate exists. -/
def findAvailableUser (users : List UserRecord) (selfId : UserId) (r : Nat) : Option UserId :=
  let av := availableUsers users selfId
  if h : 0 < av.length then some (av.get ⟨r % av.length, Nat.mod_lt r h⟩).id
  else none

/-- True exactly on room writes. -/
def StoreOp.isRoomWrite : StoreOp → Bool
  | .writeRoom _ _ => true
  | _ => false

/-- True exactly on user-record writes. -/
def StoreOp.isUserWrite : StoreOp → Bool
  | .writeUser _ _ => true
  | _ => false

/-- True exactly on writes of a MatchResponse with accepted=true. -/
def StoreOp.isAcceptedResponseWrite : StoreOp → Bool
  | .writeResponse _ r => r.accepted
  | _ => false

/-! Concrete fixtures used by witnesses and counterexamples: a requester b
and a target a, in the states the protocol produces. -/

/-- Demo local user object of the requester. -/
def demoRequester : UserInfo := { id := "b", nickname := "B", interests := [] }

/-- Demo local user object of the target. -/
def demoTarget : UserInfo := { id := "a", nickname := "A", interests := [] }

/-- Demo published record of the target, available. -/
def demoTargetRec : UserRecord := availableRecord demoTarget 0

/-- Demo store holding only the available target. -/
def demoStore1 : Store :=
  { users := [("a", demoTargetRec)], requests := [], responses := [], rooms := [] }

/-- Demo local state while searching (connecting, nothing local). -/
def demoStConnecting : LocalState :=
  { connectionStatus := .connecting, messages := [], currentChatPartner := none,
    currentRoomId := none, permissionError := none }

/-- Demo local state of an idle client (disconnected). -/
def demoStIdle : LocalState :=
  { connectionStatus := .disconnected, messages := [], currentChatPartner := none,
    currentRoomId := none, permissionError := none }

/-- Demo MatchRequest from b at requests/a. -/
def demoRequest : MatchRequest :=
  { fromId := "b", timestamp := 5, userInfo := demoRequester, roomId := some "a-b" }

/-- Demo store after b sent its request to a: b is requesting, the request
sits at requests/a. -/
def demoStoreReq : Store :=
  { users := [("a", demoTargetRec), ("b", requestingRecord demoRequester "a-b" 5)],
    requests := [("a", demoRequest)], responses := [], rooms := [] }

/-- Demo local state of b while its request is pending. -/
def demoStRequesting : LocalState :=
  { connectionStatus := .connecting, messages := [], currentChatPartner := none,
    currentRoomId := some "a-b", permissionError := none }

/-- Demo accepted MatchResponse from a at responses/b. -/
def demoAcceptResponse : MatchResponse :=
  { accepted := true, fromId := some "a", timestamp := 6,
    userInfo := some demoTarget, roomId := some "a-b" }

/-- Demo store holding one freshly created active room. -/
def demoStoreRoom : Store :=
  { users := [("a", chattingRecord demoTarget "b" "a-b" 6), ("b", chattingRecord demoRequester "a" "a-b" 6)],
    requests := [], responses := [], rooms := [("a-b", newRoomRecord "b" "a" 6)] }

/-- Demo local state of b inside the room a-b. -/
def demoStInRoom : LocalState :=
  { connectionStatus := .connected, messages := [], currentChatPartner := some demoTarget,
    currentRoomId := some "a-b", permissionError := none }

/-- Claim C10: startNewChat is re-entry guarded: called while the local
connection status is connecting, it returns at once with the local state
untouched, no store operation and no restart of the search loop. -/
theorem startNewChat_reentry_guard (st : LocalState) (user : UserInfo) (now : Nat)
    (h : st.connectionStatus = .connecting) :
    startNewChat st user now = (st, [], false) := by
  simp [startNewChat, h]

/-- Witness for C10 at the concrete connecting state. -/
theorem startNewChat_reentry_guard_witness :
    startNewChat demoStConnecting demoRequester 7 = (demoStConnecting, [], false) :=
  startNewChat_reentry_guard demoStConnecting demoRequester 7 (by decide)

/-- Claim C6: when the re-read record of the candidate is absent or not
available, sendChatRequest performs no store write at all (so neither a
MatchRequest nor a change of the own record) and re-enters candidate
search. -/
theorem sendChatRequest_stale_abort (s : Store) (st : LocalState) (user : UserInfo)
    (targetUserId : UserId) (now : Nat)
    (h : alistGet s.users targetUserId = none ∨
      ∃ t, alistGet s.users targetUserId = some t ∧ t.status ≠ .available) :
    (sendChatRequest s st user targetUserId now).2.1 = [] ∧
    (sendChatRequest s st user targetUserId now).2.2 = true ∧
    applyOps s (sendChatRequest s st user targetUserId now).2.1 = s := by
  rcases h with h | ⟨t, ht, hs⟩
  · simp [sendChatRequest, h, applyOps]
  · simp [sendChatRequest, ht, hs, applyOps]

/-- Witness for C6: the target record is present but already requesting. -/
theorem sendChatRequest_stale_abort_witness :
    (sendChatRequest demoStoreReq demoStConnecting demoTarget "b" 9).2.1 = [] ∧
    (sendChatRequest demoStoreReq demoStConnecting demoTarget "b" 9).2.2 = true ∧
    applyOps demoStoreReq (sendChatRequest demoStoreReq demoStConnecting demoTarget "b" 9).2.1 = demoStoreReq :=
  sendChatRequest_stale_abort demoStoreReq demoStConnecting demoTarget "b" 9
    (Or.inr ⟨requestingRecord demoRequester "a-b" 5, by decide, by decide⟩)

/-- Claim C2: when the timeout fires and the own record still has status
requesting (no response was processed), the handler deletes the own
response path and the request it wrote at the target, resets the own record
to available with currentRoomId null, and restarts matchmaking. -/
theorem requestTimeout_resets_and_restarts (s : Store) (st : LocalState)
    (user : UserInfo) (targetUserId : UserId) (now : Nat) (cur : UserRecord)
    (h1 : alistGet s.users user.id = some cur) (h2 : cur.status = .requesting) :
    alistGet (requestTimeout s st user targetUserId now).1.responses user.id = none ∧
    alistGet (requestTimeout s st user targetUserId now).1.requests targetUserId = none ∧
    (alistGet (requestTimeout s st user targetUserId now).1.users user.id).map
      (fun u => (u.status, u.currentRoomId)) = some (Status.available, none) ∧
    (requestTimeout s st user targetUserId now).2.2 = true := by
  simp [requestTimeout, h1, h2, applyOps, applyOp, alistGet_remove_self,
    alistGet_set_self, availableRecord]

/-- Witness for C2 at the concrete post-request store. -/
theorem requestTimeout_resets_and_restarts_witness :
    alistGet (requestTimeout demoStoreReq demoStRequesting demoRequester "a" 20).1.responses "b" = none ∧
    alistGet (requestTimeout demoStoreReq demoStRequesting demoRequester "a" 20).1.requests "a" = none ∧
    (alistGet (requestTimeout demoStoreReq demoStRequesting demoRequester "a" 20).1.users "b").map
      (fun u => (u.status, u.currentRoomId)) = some (Status.available, none) ∧
    (requestTimeout demoStoreReq demoStRequesting demoRequester "a" 20).2.2 = true :=
  requestTimeout_resets_and_restarts demoStoreReq demoStRequesting demoRequester "a" 20
    (requestingRecord demoRequester "a-b" 5) (by decide) (by decide)

/-- Claim C9: every candidate findAvailableUser returns belongs to the set
of records with online=true and status=available other than the searching
user, and null comes back exactly when that set is empty — for every users
snapshot and every random draw. -/
theorem findAvailableUser_spec (users : List UserRecord) (selfId : UserId) (r : Nat) :
    (∀ uid, findAvailableUser users selfId r = some uid →
      ∃ u, u ∈ users ∧ u.online = true ∧ u.id ≠ selfId ∧
        u.status = .available ∧ u.id = uid) ∧
    (findAvailableUser users selfId r = none ↔ availableUsers users selfId = []) := by
  constructor
  · intro uid h
    unfold findAvailableUser at h
    by_cases hl : 0 < (availableUsers users selfId).length
    · simp only [hl, dif_pos] at h
      refine ⟨(availableUsers users selfId).get ⟨r % (availableUsers users selfId).length, Nat.mod_lt r hl⟩, ?_, ?_, ?_, ?_, ?_⟩
      · have hm := List.get_mem (availableUsers users selfId)
          (r % (availableUsers users selfId).length) (Nat.mod_lt r hl)
        have := List.mem_filter.mp hm
        exact this.1
      all_goals
        have hm := List.get_mem (availableUsers users selfId)
          (r % (availableUsers users selfId).length) (Nat.mod_lt r hl)
        have hf := (List.mem_filter.mp hm).2
        simp only [Bool.and_eq_true, bne_iff_ne, decide_eq_true_eq] at hf
      · exact hf.1.1
      · exact hf.1.2
      · exact hf.2
      · exact Option.some_injective _ h
    · simp [hl] at h
  · unfold findAvailableUser
    by_cases hl : 0 < (availableUsers users selfId).length
    · simp only [hl, dif_pos]
      constructor
      · intro h
        exact absurd h (by simp)
      · intro h
        rw [h] at hl
        simp at hl
    · simp only [hl, dif_neg]
      have : (availableUsers users selfId).length = 0 := by omega
      simp [List.length_eq_zero.mp this]

/-- Witness for C9: in the demo store the draw returns the only available
record, the target a. -/
theorem findAvailableUser_spec_witness :
    ∃ u, u ∈ [demoTargetRec] ∧ u.online = true ∧ u.id ≠ "b" ∧
      u.status = .available ∧ u.id = "a" :=
  (findAvailableUser_spec [demoTargetRec] "b" 4).1 "a" (by decide)

/-- Claim C7: sendMessage is a silent no-op (no store operation) when there
is no confirmed partner or no current room; otherwise it performs exactly
one write, appending one message under the fresh path id to the message map
of the current room. -/
theorem sendMessage_noop_or_single_append (st : LocalState) (selfId : UserId)
    (text : String) (pathId msgId : String) (now : Nat) :
    ((st.currentChatPartner = none ∨ st.currentRoomId = none) →
      sendMessage st selfId text pathId msgId now = []) ∧
    (∀ p rid, st.currentChatPartner = some p → st.currentRoomId = some rid →
      ∀ (s : Store) (room : RoomRecord), alistGet s.rooms rid = some room →
        alistGet room.messages pathId = none →
        alistGet (applyOps s (sendMessage st selfId text pathId msgId now)).rooms rid =
          some ({ room with
                   messages := room.messages ++
                     [(pathId, { id := msgId, senderId := selfId, text := text, timestamp := now })] })) := by
  constructor
  · intro h
    rcases h with h | h
    · cases hr : st.currentRoomId <;> simp [sendMessage, h, hr]
    · cases hp : st.currentChatPartner <;> simp [sendMessage, h, hp]
  · intro p rid hp hr s room hroom hfresh
    simp only [sendMessage, hp, hr, applyOps, List.foldl, applyOp, hroom,
      alistGet_set_self]
    rw [alistSet_of_get_none room.messages pathId _ hfresh]

/-- Witness for C7: appending to the empty message map of the demo room. -/
theorem sendMessage_noop_or_single_append_witness :
    alistGet (applyOps demoStoreRoom (sendMessage demoStInRoom "b" "hi" "m1" "m2" 8)).rooms "a-b" =
      some ({ newRoomRecord "b" "a" 6 with
               messages := (newRoomRecord "b" "a" 6).messages ++
                 [("m1", { id := "m2", senderId := "b", text := "hi", timestamp := 8 })] }) :=
  (sendMessage_noop_or_single_append demoStInRoom "b" "hi" "m1" "m2" 8).2
    demoTarget "a-b" (by decide) (by decide) demoStoreRoom (newRoomRecord "b" "a" 6)
    (by decide) (by decide)

/-- Counterexample for C3: at a concrete request of b to the available a,
the room id placed in the local state and in the written MatchRequest is
exactly the sorted join of the two participant ids, so it is derived from
the sorted pair rather than freshly generated. -/
theorem sendChatRequest_roomId_not_fresh_cex :
    (sendChatRequest demoStore1 demoStConnecting demoRequester "a" 5).1.currentRoomId =
      some (sortedRoomId demoRequester.id "a") ∧
    sortedRoomId demoRequester.id "a" = "a-b" ∧
    (alistGet (applyOps demoStore1 (sendChatRequest demoStore1 demoStConnecting demoRequester "a" 5).2.1).requests "a").map
      MatchRequest.roomId = some (some "a-b") := by
  decide

/-- Claim C3 as amended: for every call of sendChatRequest on a candidate
whose re-read status is available, the room id used for the handshake is
the sorted pair of the two participant ids joined with a hyphen — the same
value for every request between the same pair — and it is stored in the
local state and carried by the written MatchRequest. -/
theorem sendChatRequest_roomId_sorted_join (s : Store) (st : LocalState)
    (user : UserInfo) (targetUserId : UserId) (now : Nat) (t : UserRecord)
    (h1 : alistGet s.users targetUserId = some t) (h2 : t.status = .available) :
    (sendChatRequest s st user targetUserId now).1.currentRoomId =
      some (sortedRoomId user.id targetUserId) ∧
    alistGet (applyOps s (sendChatRequest s st user targetUserId now).2.1).requests targetUserId =
      some { fromId := user.id, timestamp := now, userInfo := user,
             roomId := some (sortedRoomId user.id targetUserId) } := by
  simp [sendChatRequest, h1, h2, applyOps, applyOp, alistGet_set_self]

/-- Witness for the amended C3 at the demo store. -/
theorem sendChatRequest_roomId_sorted_join_witness :
    (sendChatRequest demoStore1 demoStConnecting demoRequester "a" 5).1.currentRoomId =
      some (sortedRoomId demoRequester.id "a") ∧
    alistGet (applyOps demoStore1 (sendChatRequest demoStore1 demoStConnecting demoRequester "a" 5).2.1).requests "a" =
      some { fromId := demoRequester.id, timestamp := 5, userInfo := demoRequester,
             roomId := some (sortedRoomId demoRequester.id "a") } :=
  sendChatRequest_roomId_sorted_join demoStore1 demoStConnecting demoRequester "a" 5
    demoTargetRec (by decide) (by decide)

/-- Counterexample for C1: in the concrete accepted handshake, the index of
the room write in the operation sequence of onAccept is NOT below the index
of the accepted-response write — the response is written first. -/
theorem onAccept_room_after_response_cex :
    ¬ (List.findIdx StoreOp.isRoomWrite
         (onAccept demoStIdle demoTarget demoRequest (requestingRecord demoRequester "a-b" 5) 9).2 <
       List.findIdx StoreOp.isAcceptedResponseWrite
         (onAccept demoStIdle demoTarget demoRequest (requestingRecord demoRequester "a-b" 5) 9).2) := by
  decide

/-- Claim C1 as amended: for every accepted handshake, onAccept writes the
MatchResponse with accepted=true first (index 0) and the Room only later
(index 3 of 5), so the requester can observe the acceptance before the Room
exists in the store; the Room write does occur before the handler ends. -/
theorem onAccept_response_precedes_room (st : LocalState) (user : UserInfo)
    (req : MatchRequest) (fromUser : UserRecord) (now : Nat) :
    List.findIdx StoreOp.isAcceptedResponseWrite (onAccept st user req fromUser now).2 <
      List.findIdx StoreOp.isRoomWrite (onAccept st user req fromUser now).2 ∧
    List.findIdx StoreOp.isRoomWrite (onAccept st user req fromUser now).2 <
      (onAccept st user req fromUser now).2.length := by
  have h1 : List.findIdx StoreOp.isAcceptedResponseWrite (onAccept st user req fromUser now).2 = 0 := rfl
  have h2 : List.findIdx StoreOp.isRoomWrite (onAccept st user req fromUser now).2 = 3 := rfl
  have h3 : (onAccept st user req fromUser now).2.length = 5 := rfl
  rw [h1, h2, h3]
  exact ⟨by omega, by omega⟩

/-- Counterexample for C5: in the concrete session creation of the
requester, the room write does NOT precede the user-record writes — both
user records are written first. -/
theorem respAccept_room_after_users_cex :
    ¬ (List.findIdx StoreOp.isRoomWrite
         (respAccept demoStRequesting demoRequester demoAcceptResponse demoTargetRec 7).2 <
       List.findIdx StoreOp.isUserWrite
         (respAccept demoStRequesting demoRequester demoAcceptResponse demoTargetRec 7).2) := by
  decide

/-- Claim C5 as amended: session creation on the requester side first
updates both participants records to status=chatting with
currentRoomId=roomId, and only then writes the Room with active=true,
startedAt=now and no message entries. -/
theorem respAccept_user_writes_precede_room (st : LocalState) (user : UserInfo)
    (resp : MatchResponse) (targetUser : UserRecord) (now : Nat) (s : Store)
    (fid : UserId) (rid : RoomId)
    (hf : resp.fromId = some fid) (hr : resp.roomId = some rid) (hne : fid ≠ user.id) :
    List.findIdx StoreOp.isUserWrite (respAccept st user resp targetUser now).2 <
      List.findIdx StoreOp.isRoomWrite (respAccept st user resp targetUser now).2 ∧
    alistGet (applyOps s (respAccept st user resp targetUser now).2).rooms rid =
      some (newRoomRecord user.id fid now) ∧
    (alistGet (applyOps s (respAccept st user resp targetUser now).2).users user.id).map
      (fun u => (u.status, u.currentRoomId)) = some (Status.chatting, some rid) ∧
    (alistGet (applyOps s (respAccept st user resp targetUser now).2).users fid).map
      (fun u => (u.status, u.currentRoomId)) = some (Status.chatting, some rid) := by
  have hne2 : user.id ≠ fid := Ne.symm hne
  simp [respAccept, hf, hr, applyOps, applyOp, alistGet_set_self,
    alistGet_set_ne, hne, hne2, chattingRecord, List.findIdx, List.findIdx.go,
    StoreOp.isUserWrite, StoreOp.isRoomWrite]

/-- Witness for the amended C5 at the concrete accepted response. -/
theorem respAccept_user_writes_precede_room_witness :
    List.findIdx StoreOp.isUserWrite
        (respAccept demoStRequesting demoRequester demoAcceptResponse demoTargetRec 7).2 <
      List.findIdx StoreOp.isRoomWrite
        (respAccept demoStRequesting demoRequester demoAcceptResponse demoTargetRec 7).2 ∧
    alistGet (applyOps demoStoreReq (respAccept demoStRequesting demoRequester demoAcceptResponse demoTargetRec 7).2).rooms "a-b" =
      some (newRoomRecord demoRequester.id "a" 7) ∧
    (alistGet (applyOps demoStoreReq (respAccept demoStRequesting demoRequester demoAcceptResponse demoTargetRec 7).2).users demoRequester.id).map
      (fun u => (u.status, u.currentRoomId)) = some (Status.chatting, some "a-b") ∧
    (alistGet (applyOps demoStoreReq (respAccept demoStRequesting demoRequester demoAcceptResponse demoTargetRec 7).2).users "a").map
      (fun u => (u.status, u.currentRoomId)) = some (Status.chatting, some "a-b") :=
  respAccept_user_writes_precede_room demoStRequesting demoRequester demoAcceptResponse
    demoTargetRec 7 demoStoreReq "a" "a-b" (by decide) (by decide) (by decide)

/-- A demo message for the C4 witness. -/
def demoMsg : ChatMessage := { id := "m2", senderId := "b", text := "hi", timestamp := 8 }

/-- Counterexample for C4: closing the demo room via endChat replaces the
whole room record: the participants set, present before, is erased (the
room still exists but its participants field is gone), contradicting that
closing may only set active=false or delete the room outright. -/
theorem endChat_erases_participants_cex :
    (alistGet demoStoreRoom.rooms "a-b").map RoomRecord.participants = some (some ["b", "a"]) ∧
    alistGet (applyOps demoStoreRoom (endChat demoStInRoom demoRequester 9).2).rooms "a-b" =
      some closedRoomRecord ∧
    closedRoomRecord.participants = none := by
  decide

/-- Claim C4 as amended: closing a room (endChat with a current room id)
replaces the entire Room record with one holding only active=false, erasing
participants, startedAt and messages; message writes are the only other
room mutation and they leave the participants of an existing room
unchanged. -/
theorem roomClose_replaces_whole_record (st : LocalState) (user : UserInfo)
    (now : Nat) (rid : RoomId) (s : Store) (h : st.currentRoomId = some rid) :
    alistGet (applyOps s (endChat st user now).2).rooms rid = some closedRoomRecord ∧
    (∀ (mid : String) (m : ChatMessage) (room : RoomRecord),
      alistGet s.rooms rid = some room →
      (alistGet (applyOp s (StoreOp.writeMessage rid mid m)).rooms rid).map
        RoomRecord.participants = some room.participants) := by
  constructor
  · simp [endChat, h, applyOps, applyOp, alistGet_set_self]
  · intro mid m room hroom
    simp [applyOp, hroom, alistGet_set_self]

/-- Witness for the amended C4 at the demo room. -/
theorem roomClose_replaces_whole_record_witness :
    alistGet (applyOps demoStoreRoom (endChat demoStInRoom demoRequester 9).2).rooms "a-b" =
      some closedRoomRecord ∧
    (alistGet (applyOp demoStoreRoom (StoreOp.writeMessage "a-b" "m1" demoMsg)).rooms "a-b").map
      RoomRecord.participants = some (newRoomRecord "b" "a" 6).participants :=
  ⟨(roomClose_replaces_whole_record demoStInRoom demoRequester 9 "a-b" demoStoreRoom (by decide)).1,
   (roomClose_replaces_whole_record demoStInRoom demoRequester 9 "a-b" demoStoreRoom (by decide)).2
     "m1" demoMsg (newRoomRecord "b" "a" 6) (by decide)⟩

/-- Counterexample for C8: in the concrete decline exchange, the record of
the requester has status requesting when the decline is processed and
status available afterwards — it is neither still available at the start
nor left unchanged by the exchange. -/
theorem declineExchange_requester_status_changes_cex :
    (alistGet demoStoreReq.users "b").map UserRecord.status = some Status.requesting ∧
    (alistGet (declineExchange demoStoreReq demoStRequesting demoRequester "a" 7 8).1.users "b").map
      UserRecord.status = some Status.available ∧
    Status.requesting ≠ Status.available := by
  decide

/-- Claim C8 as amended: a declined MatchRequest leaves the record of the
decliner untouched (still available); the record of the requester, which
the request had set to requesting, is rewritten to available with
currentRoomId null when the requester restarts matchmaking; and both the
MatchRequest path and the MatchResponse path are deleted by the end of the
exchange. -/
theorem declineExchange_cleanup (s : Store) (st : LocalState) (requester : UserInfo)
    (declinerId : UserId) (now later : Nat) (drec : UserRecord)
    (hid : declinerId ≠ requester.id)
    (hd : alistGet s.users declinerId = some drec) :
    alistGet (declineExchange s st requester declinerId now later).1.users declinerId = some drec ∧
    (alistGet (declineExchange s st requester declinerId now later).1.users requester.id).map
      (fun u => (u.status, u.currentRoomId)) = some (Status.available, none) ∧
    alistGet (declineExchange s st requester declinerId now later).1.requests declinerId = none ∧
    alistGet (declineExchange s st requester declinerId now later).1.responses requester.id = none := by
  have hid2 : requester.id ≠ declinerId := Ne.symm hid
  cases hr : st.currentRoomId <;> cases hp : st.currentChatPartner <;>
    simp [declineExchange, onDecline, respDecline, startNewChat, clearChat, hr, hp,
      applyOps, applyOp, alistGet_set_self, alistGet_remove_self,
      alistGet_set_ne, alistGet_remove_ne, hid, hid2, hd, availableRecord]

/-- Witness for the amended C8 at the concrete post-request store. -/
theorem declineExchange_cleanup_witness :
    alistGet (declineExchange demoStoreReq demoStRequesting demoRequester "a" 7 8).1.users "a" =
      some demoTargetRec ∧
    (alistGet (declineExchange demoStoreReq demoStRequesting demoRequester "a" 7 8).1.users demoRequester.id).map
      (fun u => (u.status, u.currentRoomId)) = some (Status.available, none) ∧
    alistGet (declineExchange demoStoreReq demoStRequesting demoRequester "a" 7 8).1.requests "a" = none ∧
    alistGet (declineExchange demoStoreReq demoStRequesting demoRequester "a" 7 8).1.responses demoRequester.id = none :=
  declineExchange_cleanup demoStoreReq demoStRequesting demoRequester "a" 7 8 demoTargetRec
    (by decide) (by decide)

end StrangerTalk
